import Mathlib

/-!
Shallow embedding of the actionshark GitHub fetcher
(src/actionshark/github.py): quota state, the rate-limit handler
(limit_handler / update_limit_variables / get_limit), one iteration of the
pagination loop (paginating), URL construction for the five action kinds
(actions_url with str.format), and the get_all driver.
-/

/-- JSON values, enough to model response bodies and Python truthiness. -/
inductive Json where
  | null : Json
  | bool (b : Bool) : Json
  | num (n : Int) : Json
  | str (s : String) : Json
  | arr (elems : List Json) : Json
  | obj (fields : List (String × Json)) : Json

/-- Python truthiness of a JSON value: None, False, 0, "", [] and \x7b\x7d
are falsy, everything else truthy. Used for the `if not response_JSON` test. -/
def Json.truthy : Json → Bool
  | .null => false
  | .bool b => b
  | .num n => n != 0
  | .str s => !s.isEmpty
  | .arr xs => !xs.isEmpty
  | .obj fs => !fs.isEmpty

/-- Python dict.get(k): the value when the JSON is an object holding key k,
otherwise None (modelled as none). -/
def Json.get (j : Json) (k : String) : Option Json :=
  match j with
  | .obj fs => fs.lookup k
  | _ => none

/-- Quota state held on the GitHub instance: self.remaining, self.limit and
self.reset_datetime (the latter modelled as unix seconds). -/
structure Quota where
  remaining : Int
  limit : Int
  resetAt : Int
deriving DecidableEq, Repr

/-- GitHub.get_limit: a GET of rate_limit. On status 200 the response gives
remaining / reset / limit and all three fields are overwritten; on any other
status the method only prints status and reason and changes nothing.
The transport is modelled by `resp`: some q for a 200 carrying q, none for a
non-200 response. -/
def get_limit (resp : Option Quota) (q : Quota) : Quota :=
  match resp with
  | some t => t
  | none => q

/-- GitHub.update_limit_variables: calls get_limit, then unconditionally
applies the safety margin remaining -= 2 and reset_datetime += 2 seconds. -/
def update_limit_variables (resp : Option Quota) (q : Quota) : Quota :=
  let q1 := get_limit resp q
  { q1 with remaining := q1.remaining - 2, resetAt := q1.resetAt + 2 }

/-- Python timedelta.seconds of a whole-second delta d: the seconds field of
the normalized timedelta, i.e. d mod 86400, always in [0, 86400). This models
`(self.reset_datetime - self.last_stop_datetime).seconds` in limit_handler. -/
def tdSeconds (d : Int) : Int := d % 86400

/-- Sleep duration as the specification words it.
Modelled from the spec: suspendUntilReset computes
sleepSeconds = max(0, resetAt - now); stated for comparison with tdSeconds,
which is what limit_handler actually computes. -/
def sleepSecondsSpec (resetAt now : Int) : Int := max 0 (resetAt - now)

/-- Mutable state of a GitHub instance as used by paginating: the local
github_url variable, self.page, quota fields, self.last_stop_datetime,
the total_requests and limit_handler_counter counters and
self.current_action. URLs are lists of characters so Python slicing by
character count is exact. -/
structure PagState where
  url : List Char
  page : Nat
  quota : Quota
  lastStop : Int
  totalRequests : Nat
  limitHandlerCounter : Nat
  currentAction : Option String
deriving DecidableEq, Repr

/-- GitHub.limit_handler: records now as last_stop_datetime, computes
force_to_sleep = (reset_datetime - now).seconds, increments
limit_handler_counter, sleeps, then calls update_limit_variables (whose
rate_limit response is `refresh`). Returns the new state and the number of
seconds slept. -/
def limit_handler (now : Int) (refresh : Option Quota) (s : PagState) :
    PagState × Int :=
  let force := tdSeconds (s.quota.resetAt - now)
  ({ s with lastStop := now,
            limitHandlerCounter := s.limitHandlerCounter + 1,
            quota := update_limit_variables refresh s.quota }, force)

/-- One HTTP response for a resource request: status code and parsed body. -/
structure Response where
  status : Nat
  body : Json

/-- External events consumed by one iteration of the paginating loop: the
resource response, the clock reading and rate_limit response used if
limit_handler runs, and the clock reading and rate_limit response used by
the hour-boundary check at the end of a consumed page. -/
structure IterEnv where
  resp : Response
  nowAtSuspend : Int
  refreshAtSuspend : Option Quota
  nowAtHourCheck : Int
  refreshAtHourCheck : Option Quota

/-- How one iteration of the while-loop in GitHub.paginating ends. -/
inductive Outcome where
  | fatal (status : Nat) : Outcome
  | suspend : Outcome
  | done : Outcome
  | sinkIsNone : Outcome
  | continueOk : Outcome
deriving DecidableEq, Repr

/-- Class attribute GitHub.__headers. The line that would add an
Authorization entry (line 86 of github.py) is commented out in the source,
so the dictionary keeps only the Accept entry. -/
def gh_headers : List (String × String) :=
  [("Accept", "application/vnd.github.v3+json")]

/-- The f-string suffix appended to the url each iteration:
"&page=" followed by the current page number. -/
def pageSuffix (p : Nat) : List Char := ("&page=" ++ toString p).toList

/-- Python slicing github_url[:-n]: drop the last n characters. -/
def stripTail (u : List Char) (n : Nat) : List Char := u.take (u.length - n)

/-- GitHub.save_JSON output path: save_path[:-5] + "_" + page + ".json". -/
def save_JSON_path (save_path : List Char) (page : Nat) : List Char :=
  stripTail save_path 5 ++ ("_" ++ toString page ++ ".json").toList

/-- The envelope extraction in paginating: when a checker key is set,
response_JSON = response_JSON.get(checker); otherwise the body itself. -/
def extractEnvelope (checker : Option String) (j : Json) : Option Json :=
  match checker with
  | none => some j
  | some k => Json.get j k

/-- The `if not response_JSON` test after envelope extraction: true when the
extracted value is absent (None) or falsy (e.g. an empty list). -/
def contentEmpty (o : Option Json) : Bool :=
  match o with
  | none => true
  | some j => !(Json.truthy j)

/-- Observable effects of one loop iteration: the url and headers of the
resource request, the save_mongo calls (records with current_action), the
save_JSON file paths written, the limit_handler sleep if one happened, and
the politeness sleep between requests if one happened. -/
structure IterLog where
  requestUrl : List Char
  requestHeaders : List (String × String)
  sinkCalls : List (Json × Option String)
  saveCalls : List (List Char)
  forceSleep : Option Int
  politenessSleep : Option Int

/-- One iteration of the while-loop in GitHub.paginating, lines 252-311 of
github.py. save_mongo is true when a sink callable was supplied (source
default: None, i.e. false); checker and save_path are the method arguments;
sleep_betw is self.sleep_betw_requests. Steps, in source order: append
&page=\x7bself.page\x7d to github_url; request the url; exit on a status
that is neither 200 nor 403; on 403 or remaining <= 1 run limit_handler and
continue (the appended page suffix is NOT stripped on this path); parse and
extract the envelope; break when it is empty; call save_mongo (a TypeError
if it is None) and save_JSON; strip the page suffix, increment page and
total_requests, decrement remaining, sleep, and refresh the quota when more
than an hour passed since last_stop_datetime. -/
def paginatingStep (save_mongo : Bool) (checker : Option String)
    (save_path : List Char) (sleep_betw : Int) (env : IterEnv)
    (s : PagState) : Outcome × PagState × IterLog :=
  let sentUrl := s.url ++ pageSuffix s.page
  let s0 : PagState := { s with url := sentUrl }
  let baseLog : IterLog :=
    { requestUrl := sentUrl, requestHeaders := gh_headers,
      sinkCalls := [], saveCalls := [],
      forceSleep := none, politenessSleep := none }
  if env.resp.status ≠ 200 ∧ env.resp.status ≠ 403 then
    (Outcome.fatal env.resp.status, s0, baseLog)
  else if env.resp.status = 403 ∨ s.quota.remaining ≤ 1 then
    let r := limit_handler env.nowAtSuspend env.refreshAtSuspend s0
    (Outcome.suspend, r.1, { baseLog with forceSleep := some r.2 })
  else
    let content := extractEnvelope checker env.resp.body
    if contentEmpty content then
      (Outcome.done, s0, baseLog)
    else if save_mongo = false then
      (Outcome.sinkIsNone, s0, baseLog)
    else
      let records := content.getD Json.null
      let s1 : PagState :=
        { s0 with url := stripTail sentUrl (pageSuffix s0.page).length,
                  page := s0.page + 1,
                  totalRequests := s0.totalRequests + 1,
                  quota := { s0.quota with
                             remaining := s0.quota.remaining - 1 } }
      let s2 : PagState :=
        if env.nowAtHourCheck - 3600 ≥ s1.lastStop then
          { s1 with quota :=
              update_limit_variables env.refreshAtHourCheck s1.quota }
        else s1
      (Outcome.continueOk, s2,
        { baseLog with
            sinkCalls := [(records, s.currentAction)],
            saveCalls := [save_JSON_path save_path s0.page],
            politenessSleep := some sleep_betw })

/-- Class attribute GitHub.api_url. -/
def api_url : String := "https://api.github.com/"

/-- actions_url entry for repos,
template "orgs/\x7borg\x7d/repos?per_page=\x7bper_page\x7d", after
str.format with org and per_page. -/
def repos_url (org : String) (per_page : Nat) : String :=
  "orgs/" ++ org ++ "/repos?per_page=" ++ toString per_page

/-- actions_url entry for workflows, template
"repos/\x7bowner\x7d/\x7brepo\x7d/actions/workflows?per_page=\x7bper_page\x7d",
after str.format. -/
def workflows_url (owner repo : String) (per_page : Nat) : String :=
  "repos/" ++ owner ++ "/" ++ repo ++ "/actions/workflows?per_page="
    ++ toString per_page

/-- actions_url entry for runs, template
"repos/\x7bowner\x7d/\x7brepo\x7d/actions/runs?per_page\x7bper_page\x7d",
after str.format. Note the template has no = between per_page and its
value. -/
def runs_url (owner repo : String) (per_page : Nat) : String :=
  "repos/" ++ owner ++ "/" ++ repo ++ "/actions/runs?per_page"
    ++ toString per_page

/-- actions_url entry for jobs, template
"repos/\x7bowner\x7d/\x7brepo\x7d/actions/runs/\x7brun_id\x7d/jobs?per_page\x7bper_page\x7d",
after str.format. No = between per_page and its value. -/
def jobs_url (owner repo : String) (run_id : Nat) (per_page : Nat) : String :=
  "repos/" ++ owner ++ "/" ++ repo ++ "/actions/runs/" ++ toString run_id
    ++ "/jobs?per_page" ++ toString per_page

/-- actions_url entry for artifacts, template
"repos/\x7bowner\x7d/\x7brepo\x7d/actions/runs/\x7brun_id\x7d/artifacts?per_page\x7bper_page\x7d",
after str.format. No = between per_page and its value. -/
def artifacts_url (owner repo : String) (run_id : Nat) (per_page : Nat) :
    String :=
  "repos/" ++ owner ++ "/" ++ repo ++ "/actions/runs/" ++ toString run_id
    ++ "/artifacts?per_page" ++ toString per_page

/-- Does the character list start with pat? -/
def startsWithL : List Char → List Char → Bool
  | [], _ => true
  | _ :: _, [] => false
  | p :: ps, c :: cs => p = c && startsWithL ps cs

/-- Does the character list contain pat as a contiguous substring? -/
def containsSub (pat : List Char) : List Char → Bool
  | [] => startsWithL pat []
  | c :: cs => startsWithL pat (c :: cs) || containsSub pat cs

/-- Constructor-supplied configuration used by the get_* entry points. -/
structure Config where
  owner : String
  repo : String
  per_page : Nat
deriving Repr

/-- GitHub.get_owner_repostries before it delegates to paginating: sets
current_action to repos, resets page to 1, and builds the url from
api_url and the repos template. -/
def get_owner_repostries_entry (c : Config) (s : PagState) : PagState :=
  { s with currentAction := some "repos", page := 1,
           url := (api_url ++ repos_url c.owner c.per_page).toList }

/-- GitHub.get_workflows before it delegates to paginating: sets
current_action to workflows, resets page to 1, and builds the url. -/
def get_workflows_entry (c : Config) (s : PagState) : PagState :=
  { s with currentAction := some "workflows", page := 1,
           url := (api_url ++ workflows_url c.owner c.repo c.per_page).toList }

/-- GitHub.get_runs before it delegates to paginating: sets current_action
to runs, resets page to 1, and builds the url with the
exclude_pull_requests flag appended (Python str of the bool). -/
def get_runs_entry (c : Config) (exclude_pull_requests : Bool)
    (s : PagState) : PagState :=
  { s with currentAction := some "runs", page := 1,
           url := (api_url ++ runs_url c.owner c.repo c.per_page
             ++ "&exclude_pull_requests="
             ++ (if exclude_pull_requests then "True" else "False")).toList }

/-- GitHub.get_jobs after its run_id guard: sets current_action to jobs,
resets page to 1, and builds the url. -/
def get_jobs_entry (c : Config) (run_id : Nat) (s : PagState) : PagState :=
  { s with currentAction := some "jobs", page := 1,
           url := (api_url
             ++ jobs_url c.owner c.repo run_id c.per_page).toList }

/-- GitHub.get_artifacts after its run_id guard: sets current_action to
artifacts, resets page to 1, and builds the url. -/
def get_artifacts_entry (c : Config) (run_id : Nat) (s : PagState) :
    PagState :=
  { s with currentAction := some "artifacts", page := 1,
           url := (api_url
             ++ artifacts_url c.owner c.repo run_id c.per_page).toList }

/-- The fetch operations get_all can invoke, in invocation order. -/
inductive FetchCall where
  | repos : FetchCall
  | workflows : FetchCall
  | runs : FetchCall
  | jobs (run_id : Nat) : FetchCall
  | artifacts (run_id : Nat) : FetchCall
deriving DecidableEq, Repr

/-- Python runtime error reached by get_all. -/
inductive PyError where
  | attributeErrorNoneObjects : PyError
deriving DecidableEq, Repr

/-- GitHub.get_all, lines 436-453 of github.py: always runs
get_owner_repostries, get_workflows, get_runs in that order; then the guard
is `if not runs_object:` — so when a runs object IS supplied (truthy) the
jobs and artifacts loops are skipped entirely, and when it is None the body
is entered and runs_object.objects() raises AttributeError on None before
any get_jobs call. Returns the fetch calls made and the runtime error, if
one was raised. -/
def get_all (runs_object : Option (List Nat)) :
    List FetchCall × Option PyError :=
  let base := [FetchCall.repos, FetchCall.workflows, FetchCall.runs]
  match runs_object with
  | some _ => (base, none)
  | none => (base, some PyError.attributeErrorNoneObjects)

/-- Concrete state for exercising a suspend-and-retry cycle: repositories
endpoint url, page 1, plenty of remaining quota. -/
def c4S0 : PagState :=
  ⟨("https://api.github.com/orgs/apache/repos?per_page=100").toList, 1,
    ⟨50, 5000, 2000⟩, 0, 0, 0, some "repos"⟩

/-- Environment delivering a 403 response at clock 1000, with the
rate_limit refresh answering remaining 40, limit 5000, reset 3000. -/
def c4Env : IterEnv :=
  ⟨⟨403, Json.null⟩, 1000, some ⟨40, 5000, 3000⟩, 1000, none⟩

/-- First iteration of the suspend-and-retry scenario: a 403 arrives. -/
def c4R1 : Outcome × PagState × IterLog :=
  paginatingStep true none [] 0 c4Env c4S0

/-- Second iteration of the suspend-and-retry scenario: the retry of the
deferred page. -/
def c4R2 : Outcome × PagState × IterLog :=
  paginatingStep true none [] 0 c4Env c4R1.2.1

/-- Concrete state with ample quota (remaining 100) on page 3. -/
def c1S : PagState :=
  ⟨("u").toList, 3, ⟨100, 5000, 2000⟩, 0, 0, 0, some "runs"⟩

/-- Environment delivering a 403 response. -/
def c1Env : IterEnv :=
  ⟨⟨403, Json.null⟩, 1000, some ⟨40, 5000, 3000⟩, 1000, none⟩

/-- Concrete state with remaining 10 on page 2. -/
def c6S : PagState :=
  ⟨("u").toList, 2, ⟨10, 5000, 2000⟩, 0, 0, 0, some "runs"⟩

/-- Environment delivering a 200 response whose workflow_runs envelope is
an empty list. -/
def c6Env : IterEnv :=
  ⟨⟨200, Json.obj [("workflow_runs", Json.arr [])]⟩, 0, none, 0, none⟩

/-- Concrete state with remaining 10 on page 1. -/
def c10S : PagState :=
  ⟨("u").toList, 1, ⟨10, 5000, 2000⟩, 0, 0, 0, some "workflows"⟩

/-- Environment delivering a 200 response with a non-empty workflows
envelope. -/
def c10Env : IterEnv :=
  ⟨⟨200, Json.obj [("workflows", Json.arr [Json.num 1])]⟩, 0, none, 0, none⟩

/-- Every branch of a paginating iteration sends the request to the current
url with the page suffix of the current cursor appended. -/
theorem paginatingStep_requestUrl (sm : Bool) (ch : Option String)
    (sp : List Char) (sl : Int) (env : IterEnv) (s : PagState) :
    (paginatingStep sm ch sp sl env s).2.2.requestUrl
      = s.url ++ pageSuffix s.page := by
  simp only [paginatingStep]
  split_ifs <;> rfl

/-- On a suspend iteration the successor state is exactly the limit_handler
state: the url keeps the appended page suffix and limit_handler only
touches last_stop_datetime, the counter and the quota. -/
theorem paginatingStep_suspend_state (sm : Bool) (ch : Option String)
    (sp : List Char) (sl : Int) (env : IterEnv) (s : PagState)
    (h : (paginatingStep sm ch sp sl env s).1 = Outcome.suspend) :
    (paginatingStep sm ch sp sl env s).2.1 =
      (limit_handler env.nowAtSuspend env.refreshAtSuspend
        { s with url := s.url ++ pageSuffix s.page }).1 := by
  simp only [paginatingStep] at h ⊢
  split_ifs at h ⊢ <;> simp_all

/-- A paginating iteration consumes its page (outcome continueOk) exactly
when the response is a 200, the cached remaining exceeds 1, the extracted
envelope is non-empty, and a sink callable was supplied. -/
theorem paginatingStep_continueOk_iff (sm : Bool) (ch : Option String)
    (sp : List Char) (sl : Int) (env : IterEnv) (s : PagState) :
    (paginatingStep sm ch sp sl env s).1 = Outcome.continueOk ↔
      (env.resp.status = 200 ∧ 1 < s.quota.remaining ∧
       contentEmpty (extractEnvelope ch env.resp.body) = false ∧
       sm = true) := by
  simp only [paginatingStep]
  split_ifs with h1 h2 h3 h4
  · exact iff_of_false (by simp) (fun hk => h1.1 hk.1)
  · refine iff_of_false (by simp) ?_
    rintro ⟨ha, hb, -, -⟩
    rcases h2 with h | h
    · rw [ha] at h
      exact absurd h (by decide)
    · omega
  · refine iff_of_false (by simp) ?_
    rintro ⟨-, -, hc, -⟩
    rw [h3] at hc
    exact absurd hc (by decide)
  · refine iff_of_false (by simp) ?_
    rintro ⟨-, -, -, hm⟩
    rw [hm] at h4
    exact absurd h4 (by decide)
  all_goals
    have h2' := not_or.mp h2
    have hst : env.resp.status = 200 := by
      by_contra hne
      exact h1 ⟨hne, h2'.1⟩
    refine iff_of_true rfl ⟨hst, not_le.mp h2'.2, ?_, ?_⟩
    · revert h3
      cases contentEmpty (extractEnvelope ch env.resp.body) <;> simp
    · revert h4
      cases sm <;> simp

/-- Claim C1: in paginating, a suspend (limit_handler call followed by a
retry of the current page) occurs on a non-fatal iteration (one whose
resource status is 200 or 403, the only statuses that do not exit the
process) if and only if the status is 403 or the locally cached remaining
quota is at most 1; in particular a 403 suspends even with ample cached
remaining, and a 200 with remaining at most 1 also suspends. -/
theorem c1_suspend_iff (sm : Bool) (ch : Option String) (sp : List Char)
    (sl : Int) (env : IterEnv) (s : PagState)
    (h : env.resp.status = 200 ∨ env.resp.status = 403) :
    (paginatingStep sm ch sp sl env s).1 = Outcome.suspend ↔
      (env.resp.status = 403 ∨ s.quota.remaining ≤ 1) := by
  simp only [paginatingStep]
  split_ifs <;> simp_all

/-- Claim C1 witness: a 403 response with cached remaining 100 (greater
than 1) still suspends. -/
theorem c1_suspend_iff_witness :
    (c1Env.resp.status = 200 ∨ c1Env.resp.status = 403) ∧
    ((paginatingStep true none [] 0 c1Env c1S).1 = Outcome.suspend ↔
      (c1Env.resp.status = 403 ∨ c1S.quota.remaining ≤ 1)) :=
  ⟨Or.inr rfl, c1_suspend_iff true none [] 0 c1Env c1S (Or.inr rfl)⟩

/-- Claim C2: every get action entry point resets the cursor to 1 when it
sets the new current_action; one paginating iteration advances the cursor
by exactly 1 when it consumes a page (outcome continueOk) and leaves it
unchanged otherwise — in particular across a suspend-and-retry, so the
retried request carries the same page number as the deferred one; and a
page is consumed exactly on a 200 response with non-empty extracted
content, remaining above 1 and a sink supplied. -/
theorem c2_cursor_invariant (c : Config) (epr : Bool) (rid : Nat)
    (sm : Bool) (ch : Option String) (sp : List Char) (sl : Int)
    (env : IterEnv) (s : PagState) :
    (get_owner_repostries_entry c s).page = 1 ∧
    (get_workflows_entry c s).page = 1 ∧
    (get_runs_entry c epr s).page = 1 ∧
    (get_jobs_entry c rid s).page = 1 ∧
    (get_artifacts_entry c rid s).page = 1 ∧
    (paginatingStep sm ch sp sl env s).2.1.page =
      (if (paginatingStep sm ch sp sl env s).1 = Outcome.continueOk
       then s.page + 1 else s.page) ∧
    ((paginatingStep sm ch sp sl env s).1 = Outcome.continueOk ↔
      (env.resp.status = 200 ∧ 1 < s.quota.remaining ∧
       contentEmpty (extractEnvelope ch env.resp.body) = false ∧
       sm = true)) := by
  refine ⟨rfl, rfl, rfl, rfl, rfl, ?_,
    paginatingStep_continueOk_iff sm ch sp sl env s⟩
  simp only [paginatingStep]
  split_ifs <;> simp_all [limit_handler]

/-- Claim C3, failing input: limit_handler with reset_datetime 5 seconds in
the past (reset 995, now 1000) sleeps for 86395 seconds, because Python
timedelta.seconds of a negative delta is (reset - now) mod 86400, while
the specified duration max(0, reset - now) is 0; with reset 5 seconds in
the future both agree on 5, and the handler does increment its counter. -/
theorem c3_sleep_duration :
    (limit_handler 1000 none ⟨[], 1, ⟨1, 5000, 995⟩, 0, 0, 0, none⟩).2
      = 86395 ∧
    sleepSecondsSpec 995 1000 = 0 ∧
    tdSeconds (995 - 1000) ≠ sleepSecondsSpec 995 1000 ∧
    (limit_handler 1000 none ⟨[], 1, ⟨1, 5000, 1005⟩, 0, 0, 0, none⟩).2
      = 5 ∧
    sleepSecondsSpec 1005 1000 = 5 ∧
    (limit_handler 1000 none
      ⟨[], 1, ⟨1, 5000, 1005⟩, 0, 0, 0, none⟩).1.limitHandlerCounter = 1 := by
  decide

/-- Claim C4 counterexample: after a 403 suspends page 1, the retried
request's url is not the deferred request's url (endpoint plus a single
page suffix) — the suspend path never strips the appended suffix, so the
retry carries the page parameter twice. -/
theorem c4_counterexample :
    c4R1.1 = Outcome.suspend ∧
    c4R1.2.2.requestUrl = c4S0.url ++ pageSuffix 1 ∧
    c4R2.2.2.requestUrl ≠ c4S0.url ++ pageSuffix 1 ∧
    c4R2.2.2.requestUrl = c4S0.url ++ pageSuffix 1 ++ pageSuffix 1 ∧
    c4R1.2.1.page = c4S0.page ∧
    c4R1.2.1.totalRequests = c4S0.totalRequests := by
  decide

/-- Claim C4 as amended: on a suspend-and-retry iteration neither the
cursor nor the total-request counter changes, but the retried request's
url is the deferred request's url with one more page suffix (same cursor
value) appended, i.e. the page parameter is duplicated rather than
appearing once. -/
theorem c4_retry_duplicates_suffix (sm : Bool) (ch : Option String)
    (sp : List Char) (sl : Int) (env env2 : IterEnv) (s : PagState)
    (h : (paginatingStep sm ch sp sl env s).1 = Outcome.suspend) :
    (paginatingStep sm ch sp sl env s).2.1.page = s.page ∧
    (paginatingStep sm ch sp sl env s).2.1.totalRequests
      = s.totalRequests ∧
    (paginatingStep sm ch sp sl env2
        (paginatingStep sm ch sp sl env s).2.1).2.2.requestUrl
      = (paginatingStep sm ch sp sl env s).2.2.requestUrl
        ++ pageSuffix s.page := by
  have hs := paginatingStep_suspend_state sm ch sp sl env s h
  refine ⟨by rw [hs]; rfl, by rw [hs]; rfl, ?_⟩
  rw [paginatingStep_requestUrl, paginatingStep_requestUrl, hs]
  rfl

/-- Claim C4 amended witness: the 403 scenario instantiating the amended
statement. -/
theorem c4_retry_duplicates_suffix_witness :
    (paginatingStep true none [] 0 c4Env c4S0).1 = Outcome.suspend ∧
    ((paginatingStep true none [] 0 c4Env c4S0).2.1.page = c4S0.page ∧
     (paginatingStep true none [] 0 c4Env c4S0).2.1.totalRequests
       = c4S0.totalRequests ∧
     (paginatingStep true none [] 0 c4Env
         (paginatingStep true none [] 0 c4Env c4S0).2.1).2.2.requestUrl
       = (paginatingStep true none [] 0 c4Env c4S0).2.2.requestUrl
         ++ pageSuffix c4S0.page) :=
  ⟨by decide,
   c4_retry_duplicates_suffix true none [] 0 c4Env c4Env c4S0 (by decide)⟩

/-- Claim C5 counterexample: a non-200 rate_limit response (modelled by
none) does not leave the quota state unchanged when it arrives through
update_limit_variables — remaining 10 becomes 8 and resetAt 1000 becomes
1002. -/
theorem c5_counterexample :
    update_limit_variables none ⟨10, 5000, 1000⟩ ≠ ⟨10, 5000, 1000⟩ := by
  decide

/-- Claim C5 as amended: on a non-200 quota response get_limit itself
leaves remaining, limit and resetAt unchanged, but update_limit_variables
still applies the defensive margin afterwards, so through it the state
changes by exactly that margin: remaining drops by 2, resetAt advances by
2 seconds, limit is unchanged. -/
theorem c5_margin_still_applied (q : Quota) :
    get_limit none q = q ∧
    update_limit_variables none q
      = ⟨q.remaining - 2, q.limit, q.resetAt + 2⟩ :=
  ⟨rfl, rfl⟩

/-- Claim C6: an iteration whose response is a 200 with an empty or absent
extracted envelope, reached with cached remaining above 1 (so the
rate-limit gate does not fire first), ends the loop normally: outcome
done, no sink call and no file write for that page, and no fatal exit. -/
theorem c6_empty_terminates (sm : Bool) (ch : Option String)
    (sp : List Char) (sl : Int) (env : IterEnv) (s : PagState)
    (h200 : env.resp.status = 200) (hrem : 1 < s.quota.remaining)
    (hempty : contentEmpty (extractEnvelope ch env.resp.body) = true) :
    (paginatingStep sm ch sp sl env s).1 = Outcome.done ∧
    (paginatingStep sm ch sp sl env s).2.2.sinkCalls = [] ∧
    (paginatingStep sm ch sp sl env s).2.2.saveCalls = [] := by
  simp only [paginatingStep]
  split_ifs <;> simp_all <;> omega

/-- Claim C6 witness: a 200 whose workflow_runs envelope is an empty list,
with remaining 10, terminates with no sink call and no file write. -/
theorem c6_empty_terminates_witness :
    c6Env.resp.status = 200 ∧ 1 < c6S.quota.remaining ∧
    contentEmpty (extractEnvelope (some "workflow_runs")
      c6Env.resp.body) = true ∧
    ((paginatingStep true (some "workflow_runs") [] 0 c6Env c6S).1
        = Outcome.done ∧
     (paginatingStep true (some "workflow_runs") [] 0 c6Env
        c6S).2.2.sinkCalls = [] ∧
     (paginatingStep true (some "workflow_runs") [] 0 c6Env
        c6S).2.2.saveCalls = []) :=
  ⟨rfl, by decide, by decide,
   c6_empty_terminates true (some "workflow_runs") [] 0 c6Env c6S rfl
     (by decide) (by decide)⟩

/-- Claim C7, failing input: get_all with a supplied non-empty runs
collection performs only the repositories, workflows and runs fetches, in
that order, and never reaches get_jobs or get_artifacts, because its guard
is `if not runs_object:`; with no runs collection the guard is entered and
calling objects() on None raises before any jobs fetch. -/
theorem c7_get_all_guard :
    get_all (some [11, 22])
      = ([FetchCall.repos, FetchCall.workflows, FetchCall.runs], none) ∧
    (get_all none).1
      = [FetchCall.repos, FetchCall.workflows, FetchCall.runs] ∧
    (get_all none).2 = some PyError.attributeErrorNoneObjects := by
  decide

/-- Claim C8, failing input: with owner apache, repo commons-lang, run id
77 and page size 100, the runs, jobs and artifacts request urls contain no
"per_page=" key=value pair at all (their templates lack the equals sign,
yielding "per_page100"), while the repos and workflows urls do carry
per_page=100. -/
theorem c8_per_page_urls :
    containsSub ("per_page=").toList
      ((api_url ++ runs_url "apache" "commons-lang" 100).toList) = false ∧
    containsSub ("per_page=").toList
      ((api_url ++ jobs_url "apache" "commons-lang" 77 100).toList)
      = false ∧
    containsSub ("per_page=").toList
      ((api_url ++ artifacts_url "apache" "commons-lang" 77 100).toList)
      = false ∧
    containsSub ("per_page=100").toList
      ((api_url ++ repos_url "apache" 100).toList) = true ∧
    containsSub ("per_page=100").toList
      ((api_url ++ workflows_url "apache" "commons-lang" 100).toList)
      = true := by
  decide

/-- Claim C9, failing input: every request paginating issues goes out with
the class headers, which hold only the Accept entry — the Authorization
entry is never attached because the line adding it is commented out, so
the loaded token is never used. -/
theorem c9_headers (sm : Bool) (ch : Option String) (sp : List Char)
    (sl : Int) (env : IterEnv) (s : PagState) :
    (paginatingStep sm ch sp sl env s).2.2.requestHeaders = gh_headers ∧
    gh_headers.lookup "Authorization" = none ∧
    gh_headers.lookup "Accept"
      = some "application/vnd.github.v3+json" := by
  refine ⟨?_, by decide, by decide⟩
  simp only [paginatingStep]
  split_ifs <;> rfl

/-- Claim C10: with no sink supplied (the constructor default save_mongo =
None), an iteration that reaches a 200 response with non-empty extracted
content and remaining above 1 ends by calling None as a function — an
unhandled TypeError, not a clean diagnostic exit. -/
theorem c10_none_sink_crashes (ch : Option String) (sp : List Char)
    (sl : Int) (env : IterEnv) (s : PagState)
    (h200 : env.resp.status = 200) (hrem : 1 < s.quota.remaining)
    (hfull : contentEmpty (extractEnvelope ch env.resp.body) = false) :
    (paginatingStep false ch sp sl env s).1 = Outcome.sinkIsNone := by
  simp only [paginatingStep]
  split_ifs <;> simp_all <;> omega

/-- Claim C10 witness: a 200 page with one workflow record and remaining
10, fetched by an instance built without a sink, hits the None call. -/
theorem c10_none_sink_crashes_witness :
    c10Env.resp.status = 200 ∧ 1 < c10S.quota.remaining ∧
    contentEmpty (extractEnvelope (some "workflows")
      c10Env.resp.body) = false ∧
    (paginatingStep false (some "workflows") [] 0 c10Env c10S).1
      = Outcome.sinkIsNone :=
  ⟨rfl, by decide, by decide,
   c10_none_sink_crashes (some "workflows") [] 0 c10Env c10S rfl
     (by decide) (by decide)⟩
